import Mathlib

/-!
Verification of the streamlabs-obs UI excerpt: go-live checklist rendering
(GoLiveChecklist.tsx), the base stream-info editor (BaseEditSteamInfo.tsx),
the youtube stream-info editor (YoutubeEditStreamInfo), and the platform
service registry (services/platforms/index.ts), shallowly embedded in Lean.
-/

/-- The platform identifier union type from services/platforms/index.ts:
`type TPlatform = "twitch" | "youtube" | "mixer" | "facebook"`. -/
inductive TPlatform
  | twitch
  | youtube
  | mixer
  | facebook
deriving DecidableEq, Repr

/-- The four members of the TPlatform union, in declaration order. -/
def allPlatforms : List TPlatform :=
  [.twitch, .youtube, .mixer, .facebook]

/-- The checklist item states from services/streaming
(TGoLiveChecklistItemState): not-started, pending, done, failed. -/
inductive TGoLiveChecklistItemState
  | notStarted
  | pending
  | done
  | failed
deriving DecidableEq, Repr

/-- A per-platform destination record inside IStreamSettings / IGoLiveSettings:
enabled flag, title, description, and the youtube broadcast id field. -/
structure IDestination where
  enabled : Bool
  title : String
  description : String
  broadcastId : String
deriving DecidableEq, Repr

/-- The destinations map of a settings object: one optional record per
platform, mirroring a TS object whose keys are a subset of TPlatform. -/
structure IDestinations where
  twitch : Option IDestination
  youtube : Option IDestination
  mixer : Option IDestination
  facebook : Option IDestination
deriving DecidableEq, Repr

/-- TS `destinations[platform]` member access. -/
def IDestinations.get (d : IDestinations) : TPlatform → Option IDestination
  | .twitch => d.twitch
  | .youtube => d.youtube
  | .mixer => d.mixer
  | .facebook => d.facebook

/-- TS `Object.keys(destinations)`: the platforms whose destination record is
present, in field order. -/
def IDestinations.keys (d : IDestinations) : List TPlatform :=
  allPlatforms.filter (fun p => (d.get p).isSome)

/-- IStreamSettings from services/streaming, as used by the editors:
a destinations map plus the advanced-mode flag. -/
structure IStreamSettings where
  destinations : IDestinations
  advancedMode : Bool
deriving DecidableEq, Repr

/-- BaseEditStreamInfo.enabledPlatforms (BaseEditSteamInfo.tsx):
`Object.keys(destinations).filter(p => destinations[p].enabled)`.
A key returned by Object.keys is always present, hence the getD false
branch is never taken on keys. -/
def enabledPlatforms (s : IStreamSettings) : List TPlatform :=
  s.destinations.keys.filter (fun p =>
    ((s.destinations.get p).map (fun d => d.enabled)).getD false)

/-- BaseEditStreamInfo.canShowOnlyRequiredFields (BaseEditSteamInfo.tsx):
`this.enabledPlatforms.length > 1 && !this.settings.advancedMode`. -/
def canShowOnlyRequiredFields (s : IStreamSettings) : Bool :=
  decide ((enabledPlatforms s).length > 1) && !s.advancedMode

/-- Spec-side count: the number of platforms whose destination record is
present with its enabled flag set. Used to compare the code against the
wording of the spec in C5. -/
def enabledDestinationCount (s : IStreamSettings) : Nat :=
  (allPlatforms.filter (fun p =>
    match s.destinations.get p with
    | some d => d.enabled
    | none => false)).length

/-- A youtube live broadcast descriptor as consumed by
YoutubeEditStreamInfo: an id and a snippet with title and description. -/
structure IYoutubeSnippet where
  title : String
  description : String
deriving DecidableEq, Repr

structure IYoutubeLiveBroadcast where
  id : String
  snippet : IYoutubeSnippet
deriving DecidableEq, Repr

/-- The component state of YoutubeEditStreamInfo that its handlers read:
the synced settings object, the fetched broadcasts, and the loaded flag. -/
structure YoutubeEditStreamInfoState where
  settings : IStreamSettings
  broadcasts : List IYoutubeLiveBroadcast
  broadcastsLoaded : Bool
deriving DecidableEq, Repr

/-- YoutubeEditStreamInfo.onSelectBroadcastHandler:
reads `settings.destinations.youtube`, finds the broadcast whose id equals
the current broadcastId, returns (no-op) when none is found, otherwise
overwrites the youtube title and description with the snippet values.
Accessing `.broadcastId` on an absent youtube destination faults in JS,
modelled as none. -/
def onSelectBroadcastHandler (c : YoutubeEditStreamInfoState) :
    Option YoutubeEditStreamInfoState :=
  match c.settings.destinations.youtube with
  | none => none
  | some ytSettings =>
    match c.broadcasts.find? (fun broadcast => broadcast.id == ytSettings.broadcastId) with
    | none => some c
    | some selectedBroadcast =>
      some ({ c with settings := { c.settings with destinations :=
                { c.settings.destinations with youtube := some ({ ytSettings with
                      title := selectedBroadcast.snippet.title,
                      description := selectedBroadcast.snippet.description }) } } })

/-- The rendered youtube edit form (the ValidatedForm of
YoutubeEditStreamInfo.render): the broadcast input with its bindings and
the common platform fields. -/
structure RenderedYTForm where
  broadcastIdBinding : Option String
  eventBroadcasts : List IYoutubeLiveBroadcast
  eventLoading : Bool
  eventDisabled : Bool
  commonPlatformFields : Bool
deriving DecidableEq, Repr

/-- YoutubeEditStreamInfo.canChangeBroadcast: `!this.view.isMidStreamMode`. -/
def canChangeBroadcast (isMidStreamMode : Bool) : Bool :=
  !isMidStreamMode

/-- YoutubeEditStreamInfo.render: `!canShowOnlyRequiredFields && (<form>)`;
renders nothing when the flag is true, otherwise the form with the
broadcast selector (metadata from formMetadata.event) and the common
platform fields. -/
def youtubeEditStreamInfoRender (isMidStreamMode : Bool)
    (c : YoutubeEditStreamInfoState) : Option RenderedYTForm :=
  if canShowOnlyRequiredFields c.settings then none
  else some
    { broadcastIdBinding := (c.settings.destinations.youtube).map (fun d => d.broadcastId),
      eventBroadcasts := c.broadcasts,
      eventLoading := !c.broadcastsLoaded,
      eventDisabled := !(canChangeBroadcast isMidStreamMode),
      commonPlatformFields := true }

/-- The platform service instances named in the object literal of
getPlatformService (services/platforms/index.ts). -/
inductive PlatformServiceInstance
  | twitchService
  | youtubeService
  | mixerService
  | facebookService
deriving DecidableEq, Repr

/-- The object literal of getPlatformService, as a key-value table. -/
def platformServiceTable : List (TPlatform × PlatformServiceInstance) :=
  [(.twitch, .twitchService),
   (.youtube, .youtubeService),
   (.mixer, .mixerService),
   (.facebook, .facebookService)]

/-- getPlatformService (services/platforms/index.ts): indexes the object
literal with the platform key; a missing key would yield undefined (none). -/
def getPlatformService (platform : TPlatform) : Option PlatformServiceInstance :=
  platformServiceTable.lookup platform

/-- Modelled from the spec: the displayName exposed by each platform
service (services/platforms/twitch, youtube, mixer, facebook are not in
this excerpt); the spec names the four platforms Twitch, YouTube, Mixer
and Facebook. Only distinctness of these strings matters below. -/
def displayName : TPlatform → String
  | .twitch => "Twitch"
  | .youtube => "YouTube"
  | .mixer => "Mixer"
  | .facebook => "Facebook"

/-- The checklist map info.checklist of the streaming view: one state per
enabled platform plus the five named stages. -/
structure IChecklist where
  platformState : TPlatform → TGoLiveChecklistItemState
  setupRestream : TGoLiveChecklistItemState
  applyOptimizedSettings : TGoLiveChecklistItemState
  startVideoTransmission : TGoLiveChecklistItemState
  publishYoutubeBroadcast : TGoLiveChecklistItemState
  postTweet : TGoLiveChecklistItemState

/-- The view.info record read by GoLiveChecklist: an optional error, the
lifecycle string, and the checklist map. -/
structure IStreamInfo where
  error : Option String
  lifecycle : String
  checklist : IChecklist

/-- The streaming view (streamingService.views) fields GoLiveChecklist
reads. The field name isMutliplatformMode keeps the spelling of the
source. -/
structure StreamingView where
  info : IStreamInfo
  isMutliplatformMode : Bool
  goLiveSettings : IStreamSettings
  enabledPlatformsView : List TPlatform

/-- videoEncodingOptimizationService.state, as read by the checklist. -/
structure VideoEncodingOptimizationState where
  useOptimizedProfile : Bool
deriving DecidableEq, Repr

/-- twitterService.state, as read by the checklist. -/
structure TwitterState where
  tweetWhenGoingLive : Bool
deriving DecidableEq, Repr

/-- youtubeService.progressInfo. The progress is a JS number in [0, 1];
it is embedded as a rational. At the concrete input 0.42 used below the
IEEE double product 0.42 * 100 is exactly 42, so the rational and the JS
value agree there. -/
structure YoutubeProgressInfo where
  progress : ℚ
deriving DecidableEq, Repr

/-- GoLiveChecklist.getHeaderText: error first, then the live lifecycle,
then the generic message. -/
def getHeaderText (v : StreamingView) : String :=
  if v.info.error.isSome then "Something went wrong"
  else if v.info.lifecycle == "live" then "You\x27re live!"
  else "Working on your live stream"

/-- Identifies which JSX position of GoLiveChecklist.render produced a
checklist item. -/
inductive StageKey
  | updateSettings (platform : TPlatform)
  | setupRestream
  | applyOptimizedSettings
  | startVideoTransmission
  | publishYoutubeBroadcast
  | postTweet
deriving DecidableEq, Repr

/-- The span rendered by renderYoutubePercentage: the pending css class
and the numeric value progress * 100 shown before the percent sign. -/
structure RenderedPercent where
  pendingClass : Bool
  percent : ℚ
deriving DecidableEq, Repr

/-- GoLiveChecklist.renderYoutubePercentage: returns the empty node (none)
while the publishYoutubeBroadcast stage is not-started, otherwise a span
with the pending class showing progress * 100 followed by a percent
sign. -/
def renderYoutubePercentage (v : StreamingView) (yt : YoutubeProgressInfo) :
    Option RenderedPercent :=
  if v.info.checklist.publishYoutubeBroadcast == .notStarted then none
  else some { pendingClass := true, percent := yt.progress * 100 }

/-- The span rendered by CheckMark.render: its css classes and which of
the four font-awesome icons is present. -/
structure CheckMarkRender where
  classes : List String
  circleIcon : Bool
  spinnerIcon : Bool
  checkIcon : Bool
  crossIcon : Bool
deriving DecidableEq, Repr

/-- The css-module class name styles[state] for a checklist item state. -/
def stateClassName : TGoLiveChecklistItemState → String
  | .notStarted => "not-started"
  | .pending => "pending"
  | .done => "done"
  | .failed => "failed"

/-- CheckMark.render: cssClass = cx(styles.check, styles[state]); the
fa-circle icon for not-started, fa-spinner fa-pulse for pending, fa-check
for done, fa-times for failed. -/
def checkMarkRender (state : TGoLiveChecklistItemState) : CheckMarkRender :=
  { classes := ["check", stateClassName state],
    circleIcon := state == .notStarted,
    spinnerIcon := state == .pending,
    checkIcon := state == .done,
    crossIcon := state == .failed }

/-- One li of the checklist as produced by GoLiveChecklist.renderCheck:
the stage tag records the JSX position, title is the li key, the two
li classes, the CheckMark child and the optional youtube percentage. -/
structure RenderedCheck where
  stage : StageKey
  title : String
  notStartedClass : Bool
  itemErrorClass : Bool
  mark : CheckMarkRender
  ytPercentage : Option RenderedPercent
deriving Repr

/-- GoLiveChecklist.renderCheck: li keyed by title with styles.notStarted
when state is not-started and styles.itemError when state is failed, a
CheckMark child, and the youtube percentage when requested. -/
def renderCheck (v : StreamingView) (yt : YoutubeProgressInfo)
    (stage : StageKey) (title : String) (state : TGoLiveChecklistItemState)
    (renderYTPercentage : Bool) : RenderedCheck :=
  { stage := stage,
    title := title,
    notStartedClass := state == .notStarted,
    itemErrorClass := state == .failed,
    mark := checkMarkRender state,
    ytPercentage := if renderYTPercentage then renderYoutubePercentage v yt else none }

/-- GoLiveChecklist.render: the list of checklist items, in source order:
per-enabled-platform update stages, then restream, optimized profile,
start transmission, publish youtube broadcast and post tweet, each behind
its gate. shouldPublishYT reads goLiveSettings.destinations.youtube with
optional chaining: an absent record is falsy. -/
def goLiveChecklistRender (isUpdateMode : Bool) (v : StreamingView)
    (veo : VideoEncodingOptimizationState) (tw : TwitterState)
    (yt : YoutubeProgressInfo) : List RenderedCheck :=
  let checklist := v.info.checklist
  let shouldPublishYT := !isUpdateMode &&
    ((v.goLiveSettings.destinations.youtube).map (fun d => d.enabled)).getD false
  let shouldShowOptimizedProfile := veo.useOptimizedProfile && !isUpdateMode
  let shouldPostTweet := tw.tweetWhenGoingLive
  (v.enabledPlatformsView.map (fun platform =>
    renderCheck v yt (.updateSettings platform)
      ("Update settings for " ++ displayName platform)
      (checklist.platformState platform) false))
  ++ (if !isUpdateMode && v.isMutliplatformMode then
        [renderCheck v yt .setupRestream "Configure the Restream service"
          checklist.setupRestream false]
      else [])
  ++ (if shouldShowOptimizedProfile then
        [renderCheck v yt .applyOptimizedSettings "Apply optimized settings"
          checklist.applyOptimizedSettings false]
      else [])
  ++ (if !isUpdateMode then
        [renderCheck v yt .startVideoTransmission "Start video transmission"
          checklist.startVideoTransmission false]
      else [])
  ++ (if shouldPublishYT then
        [renderCheck v yt .publishYoutubeBroadcast "Publish Youtube broadcast"
          checklist.publishYoutubeBroadcast true]
      else [])
  ++ (if shouldPostTweet then
        [renderCheck v yt .postTweet "Post a tweet" checklist.postTweet false]
      else [])

/-! Theorems -/

/-- A checklist with every stage not-started, for concrete witnesses. -/
def checklistAllNotStarted : IChecklist :=
  { platformState := fun _ => .notStarted,
    setupRestream := .notStarted,
    applyOptimizedSettings := .notStarted,
    startVideoTransmission := .notStarted,
    publishYoutubeBroadcast := .notStarted,
    postTweet := .notStarted }

/-- A destinations map with no platform configured. -/
def emptyDestinations : IDestinations :=
  { twitch := none, youtube := none, mixer := none, facebook := none }

/-- A concrete streaming view, for witnesses. -/
def sampleView (err : Option String) (lifecycle : String) : StreamingView :=
  { info := { error := err, lifecycle := lifecycle, checklist := checklistAllNotStarted },
    isMutliplatformMode := false,
    goLiveSettings := { destinations := emptyDestinations, advancedMode := false },
    enabledPlatformsView := [] }

/-- C1: the checklist header text follows the strict precedence
error > live > working: with an error present it is "Something went wrong"
regardless of lifecycle, with no error and lifecycle live it is the live
headline, and in every other case the working message. -/
theorem getHeaderText_precedence (v : StreamingView) :
    (v.info.error.isSome = true → getHeaderText v = "Something went wrong") ∧
    (v.info.error = none → v.info.lifecycle = "live" →
      getHeaderText v = "You\x27re live!") ∧
    (v.info.error = none → v.info.lifecycle ≠ "live" →
      getHeaderText v = "Working on your live stream") := by
  unfold getHeaderText
  refine ⟨fun h => by simp [h], fun h hl => by simp [h, hl], fun h hl => by simp [h, hl]⟩

/-- C1 witness: the three branches evaluated at concrete views. -/
theorem getHeaderText_precedence_witness :
    getHeaderText (sampleView (some "broken") "live") = "Something went wrong" ∧
    getHeaderText (sampleView none "live") = "You\x27re live!" ∧
    getHeaderText (sampleView none "waitForNewSettings") = "Working on your live stream" :=
  ⟨(getHeaderText_precedence (sampleView (some "broken") "live")).1 rfl,
   (getHeaderText_precedence (sampleView none "live")).2.1 rfl rfl,
   (getHeaderText_precedence (sampleView none "waitForNewSettings")).2.2 rfl (by decide)⟩

/-- C2: for every checklist-stage status the rendered stage matches the
fixed mapping: not-started gives the circle icon and the not-started li
class, pending the spinning spinner, done the checkmark, failed the cross
with the error li class; a done stage carries neither the not-started
class nor the error class. -/
theorem renderCheck_state_mapping (v : StreamingView) (yt : YoutubeProgressInfo)
    (stage : StageKey) (title : String) (p : Bool) :
    ((renderCheck v yt stage title .notStarted p).mark.circleIcon = true ∧
      (renderCheck v yt stage title .notStarted p).mark.classes = ["check", "not-started"] ∧
      (renderCheck v yt stage title .notStarted p).notStartedClass = true ∧
      (renderCheck v yt stage title .notStarted p).itemErrorClass = false ∧
      (renderCheck v yt stage title .notStarted p).mark.spinnerIcon = false ∧
      (renderCheck v yt stage title .notStarted p).mark.checkIcon = false ∧
      (renderCheck v yt stage title .notStarted p).mark.crossIcon = false) ∧
    ((renderCheck v yt stage title .pending p).mark.spinnerIcon = true ∧
      (renderCheck v yt stage title .pending p).mark.classes = ["check", "pending"] ∧
      (renderCheck v yt stage title .pending p).notStartedClass = false ∧
      (renderCheck v yt stage title .pending p).itemErrorClass = false ∧
      (renderCheck v yt stage title .pending p).mark.circleIcon = false ∧
      (renderCheck v yt stage title .pending p).mark.checkIcon = false ∧
      (renderCheck v yt stage title .pending p).mark.crossIcon = false) ∧
    ((renderCheck v yt stage title .done p).mark.checkIcon = true ∧
      (renderCheck v yt stage title .done p).mark.classes = ["check", "done"] ∧
      (renderCheck v yt stage title .done p).notStartedClass = false ∧
      (renderCheck v yt stage title .done p).itemErrorClass = false ∧
      (renderCheck v yt stage title .done p).mark.circleIcon = false ∧
      (renderCheck v yt stage title .done p).mark.spinnerIcon = false ∧
      (renderCheck v yt stage title .done p).mark.crossIcon = false) ∧
    ((renderCheck v yt stage title .failed p).mark.crossIcon = true ∧
      (renderCheck v yt stage title .failed p).mark.classes = ["check", "failed"] ∧
      (renderCheck v yt stage title .failed p).notStartedClass = false ∧
      (renderCheck v yt stage title .failed p).itemErrorClass = true ∧
      (renderCheck v yt stage title .failed p).mark.circleIcon = false ∧
      (renderCheck v yt stage title .failed p).mark.spinnerIcon = false ∧
      (renderCheck v yt stage title .failed p).mark.checkIcon = false) := by
  simp [renderCheck, checkMarkRender, stateClassName]

/-- Spec-side predicate for C5: the youtube destination record of a
settings object is present with its enabled flag set. -/
def youtubeDestinationEnabled (s : IStreamSettings) : Prop :=
  ∃ d, s.destinations.youtube = some d ∧ d.enabled = true

/-- The length of BaseEditStreamInfo.enabledPlatforms equals the number of
platforms whose destination is present and enabled. -/
theorem enabledPlatforms_length (s : IStreamSettings) :
    (enabledPlatforms s).length = enabledDestinationCount s := by
  unfold enabledPlatforms enabledDestinationCount IDestinations.keys
  rw [List.filter_filter]
  refine congrArg List.length (List.filter_congr ?_)
  intro p _
  cases s.destinations.get p <;> simp

/-- C5: canShowOnlyRequiredFields is true exactly when strictly more than
one platform destination is enabled and advanced mode is off. -/
theorem canShowOnlyRequiredFields_iff (s : IStreamSettings) :
    canShowOnlyRequiredFields s = true ↔
      (1 < enabledDestinationCount s ∧ s.advancedMode = false) := by
  simp [canShowOnlyRequiredFields, enabledPlatforms_length]

/-- C5 witness: two enabled destinations and advanced mode off give true;
flipping advanced mode on, or dropping to one enabled destination,
gives false. -/
theorem canShowOnlyRequiredFields_iff_witness :
    canShowOnlyRequiredFields
      { destinations :=
          { twitch := some { enabled := true, title := "", description := "", broadcastId := "" },
            youtube := some { enabled := true, title := "", description := "", broadcastId := "" },
            mixer := none, facebook := none },
        advancedMode := false } = true :=
  (canShowOnlyRequiredFields_iff _).mpr ⟨by decide, rfl⟩

/-- C9: getPlatformService is total over TPlatform: each of the four
platform identifiers maps to its service instance, and the four
identifiers are the entire platform set. -/
theorem getPlatformService_total :
    (∀ platform : TPlatform, (getPlatformService platform).isSome = true) ∧
    getPlatformService .twitch = some .twitchService ∧
    getPlatformService .youtube = some .youtubeService ∧
    getPlatformService .mixer = some .mixerService ∧
    getPlatformService .facebook = some .facebookService ∧
    (∀ platform : TPlatform, platform ∈ allPlatforms) :=
  ⟨fun platform => by cases platform <;> rfl,
   rfl, rfl, rfl, rfl,
   fun platform => by cases platform <;> decide⟩

/-- C3: in update mode the rendered stage list is exactly one update
settings stage per enabled platform, followed by the tweet stage when
configured; in particular the restream, optimized profile, start
transmission and publish youtube broadcast stages never render. -/
theorem goLiveChecklistRender_updateMode (v : StreamingView)
    (veo : VideoEncodingOptimizationState) (tw : TwitterState)
    (yt : YoutubeProgressInfo) :
    (goLiveChecklistRender true v veo tw yt).map (fun r => r.stage) =
      v.enabledPlatformsView.map StageKey.updateSettings ++
        (if tw.tweetWhenGoingLive then [StageKey.postTweet] else []) := by
  cases htw : tw.tweetWhenGoingLive <;>
    simp [goLiveChecklistRender, renderCheck, htw, Function.comp]

/-- C7: each conditional checklist stage renders exactly under its gate:
setupRestream iff multi-platform mode and not update mode,
applyOptimizedSettings iff the optimized profile option is on and not
update mode, publishYoutubeBroadcast iff not update mode and the youtube
destination is enabled. -/
theorem goLiveChecklistRender_gates (u : Bool) (v : StreamingView)
    (veo : VideoEncodingOptimizationState) (tw : TwitterState)
    (yt : YoutubeProgressInfo) :
    (StageKey.setupRestream ∈
        (goLiveChecklistRender u v veo tw yt).map (fun r => r.stage) ↔
      (u = false ∧ v.isMutliplatformMode = true)) ∧
    (StageKey.applyOptimizedSettings ∈
        (goLiveChecklistRender u v veo tw yt).map (fun r => r.stage) ↔
      (veo.useOptimizedProfile = true ∧ u = false)) ∧
    (StageKey.publishYoutubeBroadcast ∈
        (goLiveChecklistRender u v veo tw yt).map (fun r => r.stage) ↔
      (u = false ∧ youtubeDestinationEnabled v.goLiveSettings)) := by
  cases u <;> cases hm : v.isMutliplatformMode <;>
    cases ho : veo.useOptimizedProfile <;> cases htw : tw.tweetWhenGoingLive <;>
    rcases hyt : v.goLiveSettings.destinations.youtube with _ | ⟨e, t, d, b⟩ <;>
    (try cases e) <;>
    simp [goLiveChecklistRender, renderCheck, youtubeDestinationEnabled,
      hm, ho, htw, hyt]

/-- A concrete view in multi-platform mode, for the C7 witness. -/
def sampleViewMulti : StreamingView :=
  { info := { error := none, lifecycle := "live", checklist := checklistAllNotStarted },
    isMutliplatformMode := true,
    goLiveSettings := { destinations := emptyDestinations, advancedMode := false },
    enabledPlatformsView := [] }

/-- C7 witness: outside update mode and in multi-platform mode the
setupRestream stage is rendered. -/
theorem goLiveChecklistRender_gates_witness :
    StageKey.setupRestream ∈
      (goLiveChecklistRender false sampleViewMulti { useOptimizedProfile := false }
        { tweetWhenGoingLive := false } { progress := 0 }).map (fun r => r.stage) :=
  ((goLiveChecklistRender_gates false sampleViewMulti { useOptimizedProfile := false }
    { tweetWhenGoingLive := false } { progress := 0 }).1).mpr ⟨rfl, rfl⟩

/-- C6: the youtube publish percentage renders exactly when the
publishYoutubeBroadcast stage is past not-started, and at progress 0.42
the rendered span shows the value 42 before the percent sign. -/
theorem renderYoutubePercentage_gate (v : StreamingView) (yt : YoutubeProgressInfo) :
    (renderYoutubePercentage v yt).isSome =
      !(v.info.checklist.publishYoutubeBroadcast == TGoLiveChecklistItemState.notStarted) ∧
    (yt.progress = 42 / 100 →
      (v.info.checklist.publishYoutubeBroadcast ==
        TGoLiveChecklistItemState.notStarted) = false →
      renderYoutubePercentage v yt = some { pendingClass := true, percent := 42 }) := by
  constructor
  · unfold renderYoutubePercentage
    cases h : (v.info.checklist.publishYoutubeBroadcast ==
        TGoLiveChecklistItemState.notStarted) <;> simp [h]
  · intro hp hs
    unfold renderYoutubePercentage
    rw [hs]
    simp [hp]

/-- A concrete view whose youtube publish stage is pending, for the C6
witness. -/
def sampleViewYTPending : StreamingView :=
  { info := { error := none, lifecycle := "live",
              checklist := { checklistAllNotStarted with
                               publishYoutubeBroadcast := .pending } },
    isMutliplatformMode := false,
    goLiveSettings := { destinations := emptyDestinations, advancedMode := false },
    enabledPlatformsView := [] }

/-- C6 witness: with the publish stage pending and progress 0.42 the span
shows 42 percent. -/
theorem renderYoutubePercentage_gate_witness :
    renderYoutubePercentage sampleViewYTPending { progress := 42 / 100 } =
      some { pendingClass := true, percent := 42 } :=
  (renderYoutubePercentage_gate sampleViewYTPending { progress := 42 / 100 }).2 rfl rfl

/-- C4: with a youtube destination present, the broadcast-selection
handler is a no-op when no fetched broadcast carries the selected id, and
overwrites exactly the youtube title and description with the found
descriptor snippet when one does. -/
theorem onSelectBroadcastHandler_lookup (c : YoutubeEditStreamInfoState)
    (ytd : IDestination) (hyt : c.settings.destinations.youtube = some ytd) :
    ((∀ broadcast ∈ c.broadcasts, (broadcast.id == ytd.broadcastId) = false) →
      onSelectBroadcastHandler c = some c) ∧
    (∀ selectedBroadcast,
      c.broadcasts.find? (fun broadcast => broadcast.id == ytd.broadcastId) =
        some selectedBroadcast →
      onSelectBroadcastHandler c =
        some ({ c with settings := { c.settings with destinations :=
                  { c.settings.destinations with youtube := some ({ ytd with
                        title := selectedBroadcast.snippet.title,
                        description := selectedBroadcast.snippet.description }) } } })) := by
  constructor
  · intro hnone
    have hfind : c.broadcasts.find?
        (fun broadcast => broadcast.id == ytd.broadcastId) = none :=
      List.find?_eq_none.mpr (fun x hx => by simp [hnone x hx])
    unfold onSelectBroadcastHandler
    rw [hyt]
    simp [hfind]
  · intro b hb
    unfold onSelectBroadcastHandler
    rw [hyt]
    simp [hb]

/-- A fetched broadcast descriptor, for the C4 witness. -/
def sampleBroadcast : IYoutubeLiveBroadcast :=
  { id := "bc1",
    snippet := { title := "Selected title", description := "Selected description" } }

/-- The youtube destination of the C4 sample state. -/
def sampleYTDest : IDestination :=
  { enabled := true, title := "old title",
    description := "old description", broadcastId := "bc1" }

/-- The youtube destination with a stale broadcast id. -/
def sampleYTDestStale : IDestination :=
  { enabled := true, title := "old title",
    description := "old description", broadcastId := "gone" }

/-- An editor state whose selected broadcast id matches the fetched
broadcast, for the C4 witness. -/
def sampleYTState : YoutubeEditStreamInfoState :=
  { settings :=
      { destinations :=
          { twitch := none,
            youtube := some sampleYTDest,
            mixer := none, facebook := none },
        advancedMode := false },
    broadcasts := [sampleBroadcast],
    broadcastsLoaded := true }

/-- An editor state whose selected broadcast id matches nothing fetched,
for the C4 witness. -/
def sampleYTStateStale : YoutubeEditStreamInfoState :=
  { settings :=
      { destinations :=
          { twitch := none,
            youtube := some sampleYTDestStale,
            mixer := none, facebook := none },
        advancedMode := false },
    broadcasts := [sampleBroadcast],
    broadcastsLoaded := true }

/-- C4 witness: a stale id leaves the state unchanged, a matching id
rewrites exactly the title and description with the snippet values. -/
theorem onSelectBroadcastHandler_lookup_witness :
    onSelectBroadcastHandler sampleYTStateStale = some sampleYTStateStale ∧
    onSelectBroadcastHandler sampleYTState =
      some { settings :=
               { destinations :=
                   { twitch := none,
                     youtube := some { enabled := true, title := "Selected title",
                                       description := "Selected description",
                                       broadcastId := "bc1" },
                     mixer := none, facebook := none },
                 advancedMode := false },
             broadcasts := [sampleBroadcast],
             broadcastsLoaded := true } :=
  ⟨(onSelectBroadcastHandler_lookup sampleYTStateStale sampleYTDestStale rfl).1
      (by decide),
   (onSelectBroadcastHandler_lookup sampleYTState sampleYTDest rfl).2
      sampleBroadcast rfl⟩

/-- C10: the broadcast-selection handler mutates at most the youtube
title and description: the fetched broadcasts, the loaded flag, the
advanced-mode flag, every other platform destination, and the youtube
broadcastId and enabled flag survive unchanged whenever the handler
returns a state. -/
theorem onSelectBroadcastHandler_frame (c c2 : YoutubeEditStreamInfoState)
    (h : onSelectBroadcastHandler c = some c2) :
    c2.broadcasts = c.broadcasts ∧
    c2.broadcastsLoaded = c.broadcastsLoaded ∧
    c2.settings.advancedMode = c.settings.advancedMode ∧
    c2.settings.destinations.twitch = c.settings.destinations.twitch ∧
    c2.settings.destinations.mixer = c.settings.destinations.mixer ∧
    c2.settings.destinations.facebook = c.settings.destinations.facebook ∧
    Option.map (fun d => d.broadcastId) c2.settings.destinations.youtube =
      Option.map (fun d => d.broadcastId) c.settings.destinations.youtube ∧
    Option.map (fun d => d.enabled) c2.settings.destinations.youtube =
      Option.map (fun d => d.enabled) c.settings.destinations.youtube := by
  obtain ⟨⟨⟨dt, dy, dm, df⟩, adv⟩, brs, loaded⟩ := c
  cases dy with
  | none => simp [onSelectBroadcastHandler] at h
  | some ytd =>
    rcases hfind : brs.find? (fun broadcast => broadcast.id == ytd.broadcastId)
      with _ | b
    · simp [onSelectBroadcastHandler, hfind] at h
      subst h
      simp
    · simp [onSelectBroadcastHandler, hfind] at h
      subst h
      simp

/-- The state produced by the handler on the sample matching state. -/
def sampleYTStateAfter : YoutubeEditStreamInfoState :=
  { settings :=
      { destinations :=
          { twitch := none,
            youtube := some { enabled := true, title := "Selected title",
                              description := "Selected description",
                              broadcastId := "bc1" },
            mixer := none, facebook := none },
        advancedMode := false },
    broadcasts := [sampleBroadcast],
    broadcastsLoaded := true }

/-- C10 witness: the frame condition evaluated on the concrete matching
state of the C4 samples. -/
theorem onSelectBroadcastHandler_frame_witness :
    sampleYTStateAfter.settings.destinations.twitch =
      sampleYTState.settings.destinations.twitch ∧
    Option.map (fun d => d.broadcastId) sampleYTStateAfter.settings.destinations.youtube =
      Option.map (fun d => d.broadcastId) sampleYTState.settings.destinations.youtube :=
  ⟨(onSelectBroadcastHandler_frame sampleYTState sampleYTStateAfter (by decide)).2.2.2.1,
   (onSelectBroadcastHandler_frame sampleYTState sampleYTStateAfter
      (by decide)).2.2.2.2.2.2.1⟩

/-- C8: the stream-info editor renders nothing when
canShowOnlyRequiredFields holds, and otherwise renders the form with the
broadcast selector bindings and the common platform fields. -/
theorem youtubeEditStreamInfoRender_gate (m : Bool) (c : YoutubeEditStreamInfoState) :
    (canShowOnlyRequiredFields c.settings = true →
      youtubeEditStreamInfoRender m c = none) ∧
    (canShowOnlyRequiredFields c.settings = false →
      youtubeEditStreamInfoRender m c = some
        { broadcastIdBinding :=
            Option.map (fun d => d.broadcastId) c.settings.destinations.youtube,
          eventBroadcasts := c.broadcasts,
          eventLoading := !c.broadcastsLoaded,
          eventDisabled := !(canChangeBroadcast m),
          commonPlatformFields := true }) := by
  constructor <;> intro h <;> simp [youtubeEditStreamInfoRender, h]

/-- An editor state with two enabled destinations and advanced mode off,
for the C8 witness. -/
def sampleYTStateTwoEnabled : YoutubeEditStreamInfoState :=
  { settings :=
      { destinations :=
          { twitch := some { enabled := true, title := "",
                             description := "", broadcastId := "" },
            youtube := some sampleYTDest,
            mixer := none, facebook := none },
        advancedMode := false },
    broadcasts := [sampleBroadcast],
    broadcastsLoaded := true }

/-- C8 witness: with two enabled destinations and advanced mode off the
editor renders nothing; with a single enabled destination it renders the
form. -/
theorem youtubeEditStreamInfoRender_gate_witness :
    youtubeEditStreamInfoRender false sampleYTStateTwoEnabled = none ∧
    youtubeEditStreamInfoRender false sampleYTState = some
      { broadcastIdBinding := some "bc1",
        eventBroadcasts := [sampleBroadcast],
        eventLoading := false,
        eventDisabled := false,
        commonPlatformFields := true } :=
  ⟨(youtubeEditStreamInfoRender_gate false sampleYTStateTwoEnabled).1 (by decide),
   (youtubeEditStreamInfoRender_gate false sampleYTState).2 (by decide)⟩
